import Mathlib

set_option maxRecDepth 8192

namespace SteamNews

/-! Shallow embedding of fetcher.py, the single source file of the
steamnews repository.  Machine strings are Lean Strings, timestamps are
integers in seconds, and the asynchronous loops are modelled as folds over
the futures' results in completion order. -/

/-- Characters of the lowercased string; models Python str.lower on the
ASCII markers this program matches against. -/
def lowerStr (s : String) : String :=
  String.mk (s.data.map Char.toLower)

/-- Does the second list start with the first one? -/
def startsList : List Char → List Char → Bool
  | [], _ => true
  | _ :: _, [] => false
  | a :: as, b :: bs => a == b && startsList as bs

/-- Does the haystack contain the needle as a contiguous run?  Models the
Python substring containment test. -/
def hasSub (needle : List Char) : List Char → Bool
  | [] => needle.isEmpty
  | c :: rest => startsList needle (c :: rest) || hasSub needle rest

/-- Substring containment on strings. -/
def strContainsSub (hay needle : String) : Bool :=
  hasSub needle.data hay.data

/-- Does the string end with the given tail? -/
def strEndsWith (s tail : String) : Bool :=
  startsList tail.data.reverse s.data.reverse

/-- Models cgi.escape with the quote flag left at its default: the
ampersand, less-than and greater-than characters are replaced by their
entities.  The Python implementation applies three sequential
single-character replaces, ampersand first, which is equivalent to this
single left-to-right pass. -/
def cgi_escape (s : String) : String :=
  String.mk (s.data.foldr (fun c acc =>
    (if c = '&' then "&amp;".data
     else if c = '<' then "&lt;".data
     else if c = '>' then "&gt;".data
     else [c]) ++ acc) [])

/-- Replace occurrences of pat by rep, left to right, non-overlapping; the
fuel bounds the scan and the behaviour models Python str.replace for a
nonempty pat whenever the fuel is at least the length of the text. -/
def replaceAux (pat rep : List Char) : Nat → List Char → List Char
  | _, [] => []
  | 0, rest => rest
  | fuel + 1, c :: rest =>
    if !pat.isEmpty && startsList pat (c :: rest) then
      rep ++ replaceAux pat rep fuel (List.drop pat.length (c :: rest))
    else
      c :: replaceAux pat rep fuel rest

/-- String replacement, models Python str.replace for nonempty patterns. -/
def strReplace (s pat rep : String) : String :=
  String.mk (replaceAux pat.data rep.data s.data.length s.data)

/-- Tag names the configured bbcode parser recognizes: the bbcode library's
default formatters plus the img and h1..h6 simple formatters installed in
AtomRenderer (fetcher.py lines 188-193). -/
def recognized_tags : List String :=
  ["b", "i", "u", "s", "hr", "sub", "sup", "list", "*", "quote", "code",
   "center", "color", "url", "img", "h1", "h2", "h3", "h4", "h5", "h6"]

/-- Detection loop of AtomRenderer.render_article (fetcher.py lines
196-202): for every recognized tag, the opening marker without its closing
bracket is searched for in the lowercased body. -/
def hasMarker (value : String) : Bool :=
  recognized_tags.any (fun k => strContainsSub (lowerStr value) ("[" ++ k))

/-- AtomRenderer.render_article (fetcher.py lines 195-205).  The bbcode
library's format method is an external collaborator, passed as bbformat;
when a marker is found the code escapes the formatted output, otherwise it
escapes the original text. -/
def render_article (bbformat : String → String) (value : String) : String :=
  if hasMarker value then cgi_escape (bbformat value) else cgi_escape value

/-- Simple formatter installed by add_simple_formatter for a plain tag t:
the template turns the opening marker into the HTML open tag and the
closing marker into the HTML close tag (fetcher.py lines 189-193). -/
def simpleFormat (t : String) (s : String) : String :=
  strReplace (strReplace s ("[" ++ t ++ "]") ("<" ++ t ++ ">"))
    ("[/" ++ t ++ "]") ("</" ++ t ++ ">")

/-- Rendering by the h1..h6 simple formatters installed at fetcher.py
lines 191-193, the only formatters exercised by the bodies considered in
the theorems below. -/
def hFormat (s : String) : String :=
  ["h1", "h2", "h3", "h4", "h5", "h6"].foldl (fun acc t => simpleFormat t acc) s

/-- Game.needs_update (fetcher.py lines 135-144): artifact_mtime is the
modification time of the appid's atom artifact when that file exists, and
none when the open raises FileNotFoundError; times are in seconds. -/
def needs_update (artifact_mtime : Option Int) (now : Int) : Bool :=
  match artifact_mtime with
  | some mtime => if mtime > now - 60 * 60 then false else true
  | none => true

/-- C1 counterexample: on the body of the spec's own example the sanitizer
does not return the claimed HTML, because render_article escapes the
bbcode-rendered output, turning the produced h1 element into entities. -/
theorem C1_counterexample :
    render_article hFormat "[h1]Update[/h1] Fixed bugs"
      ≠ "<h1>Update</h1> Fixed bugs" := by decide

/-- C1 amended: when a recognized opening marker is present, matched
case-insensitively by opening marker alone, render_article returns the
HTML-escape of the bbcode-rendered body, so the produced HTML elements are
themselves escaped; with no marker present it returns the HTML-escaped
original text unchanged. -/
theorem C1_sanitize_escapes_rendered (f : String → String) (v : String) :
    (hasMarker v = true → render_article f v = cgi_escape (f v))
    ∧ (hasMarker v = false → render_article f v = cgi_escape v)
    ∧ render_article hFormat "[h1]Update[/h1] Fixed bugs"
        = "&lt;h1&gt;Update&lt;/h1&gt; Fixed bugs"
    ∧ render_article hFormat "Just an announcement" = "Just an announcement" := by
  refine ⟨?_, ?_, by decide, by decide⟩
  · intro h
    simp [render_article, h]
  · intro h
    simp [render_article, h]

/-- C1 witness: the marker branch applied at the example body. -/
theorem C1_witness :
    render_article hFormat "[h1]Update[/h1] Fixed bugs"
      = cgi_escape (hFormat "[h1]Update[/h1] Fixed bugs") :=
  (C1_sanitize_escapes_rendered hFormat "[h1]Update[/h1] Fixed bugs").1 (by decide)

/-- C7: needs_update is false exactly when an artifact exists whose
recorded timestamp is within the one-hour freshness threshold of now, and
true otherwise. -/
theorem C7_needs_update_iff (a : Option Int) (now : Int) :
    needs_update a now = false ↔ ∃ m, a = some m ∧ now - m < 60 * 60 := by
  cases a with
  | none => simp [needs_update]
  | some m =>
    by_cases h : m > now - 60 * 60 <;> simp [needs_update, h] <;> omega

structure CatalogEntry where
  appid : Nat
  name : String
deriving DecidableEq

structure Row where
  appid : Nat
  name : String
  type : String
  windows : Bool
  mac : Bool
  linux : Bool
  early_access : Bool
deriving DecidableEq

/-- Substring alternatives of the USELESS regular expression (fetcher.py
line 218); the bracketed character classes are expanded and the Trailer
followed by a digit alternative is subsumed by the Trailer entry. -/
def USELESS_SUBSTRINGS : List String :=
  ["???", "ValveTestApp", "Game Key", " E3 ", "DLC", "Dedicated Server",
   "Dedicated server", "_", "Soundtrack", "Pre-Order", "Pre-order", "Teaser",
   "trailer", "Trailer", "Add-On", "CD Key"]

/-- Alternatives the USELESS regular expression anchors at the end of the
name (fetcher.py line 218). -/
def USELESS_SUFFIXES : List String :=
  ["Gameplay", "Preview", "Review", "Pack", "Strategy Guide",
   "Development Kit", "Foil Conversion", "Foil", "Deck Key", "Demo"]

/-- GameDB.USELESS (fetcher.py line 218): a name matches when it contains
one of the substring alternatives or ends with one of the anchored ones. -/
def USELESS (name : String) : Bool :=
  USELESS_SUBSTRINGS.any (fun p => strContainsSub name p) ||
  USELESS_SUFFIXES.any (fun p => strEndsWith name p)

/-- The appids already present in the games table, as selected by
GameDB.update (fetcher.py line 235). -/
def known_ids (table : List Row) : List Nat :=
  table.map Row.appid

/-- The two comprehensions of GameDB.update (fetcher.py lines 237-238):
catalog entries whose appid is not yet in the table, then those whose name
the classifier does not mark useless. -/
def unknown_games (games : List CatalogEntry) (table : List Row) : List CatalogEntry :=
  (games.filter (fun g => decide (g.appid ∉ known_ids table))).filter
    (fun g => !USELESS g.name)

/-- chunk_size constant bound at the top of GameDB.filter_out_garbage
(fetcher.py line 253); it is never used again in the function body. -/
def chunk_size : Nat := 20

/-- Detail lookups created by GameDB.filter_out_garbage (fetcher.py lines
257-260): one AppDetails request per game, all of them created by the list
comprehension before any response is consumed. -/
def app_details_futures (games : List CatalogEntry) : List Nat :=
  games.map CatalogEntry.appid

structure PlatformMap where
  windows : Option Bool
  mac : Option Bool
  linux : Option Bool
deriving DecidableEq

structure AppData where
  type : Option String
  genres : List Nat
  platforms : PlatformMap
deriving DecidableEq

structure AppInfo where
  data : Option AppData
deriving DecidableEq

/-- Empty mapping used as the default of the data lookup at fetcher.py
line 275; every field lookup on it falls back to its own default. -/
def emptyData : AppData :=
  ⟨none, [], ⟨none, none, none⟩⟩

/-- Row built for one response entry by GameDB.filter_out_garbage
(fetcher.py lines 272-285): the name comes from the games_map, the type
defaults to the sentinel when missing, early access is the presence of
genre id 70, the platform flags default to false. -/
def processEntry (games_map : Nat → String) (appid : Nat) (game_info : AppInfo) : Row :=
  let game_data := game_info.data.getD emptyData
  { appid := appid
    name := games_map appid
    type := game_data.type.getD "UNKNOWN!!"
    windows := game_data.platforms.windows.getD false
    mac := game_data.platforms.mac.getD false
    linux := game_data.platforms.linux.getD false
    early_access := game_data.genres.contains 70 }

/-- First-occurrence split, modelling the bytes split with a single
maxsplit; returns none when the separator does not occur. -/
def splitFirst (sep : List Char) : List Char → Option (List Char × List Char)
  | [] => none
  | c :: rest =>
    if !sep.isEmpty && startsList sep (c :: rest) then
      some ([], List.drop sep.length (c :: rest))
    else
      match splitFirst sep rest with
      | none => none
      | some (before, after) => some (c :: before, after)

/-- HTTPProtocol.decode_response (fetcher.py lines 72-89): the raw
response is split at the first blank line into headers and body; the
headers, status line included, are bound to an unused name and never
examined, so a rate-limit status is invisible here; the body goes to the
JSON decoder of the json library, passed as jsonLoads, whose ValueError
becomes the future's exception. -/
def decode_response (jsonLoads : String → Except String (List (Nat × AppInfo)))
    (response : String) : Except String (List (Nat × AppInfo)) :=
  match splitFirst ("\r\n\r\n".data) response.data with
  | none => Except.error "ValueError"
  | some (_headers, body) => jsonLoads (String.mk body)

/-- Response-processing loop of GameDB.filter_out_garbage (fetcher.py
lines 264-288), over the completed futures in completion order: a future
that failed with ValueError is skipped by the continue; otherwise every
entry of the decoded mapping becomes a row and the whole batch is inserted
and committed at once.  Returns the committed batches in commit order. -/
def filter_out_garbage (games_map : Nat → String)
    (responses : List (Except String (List (Nat × AppInfo)))) : List (List Row) :=
  responses.filterMap (fun res =>
    match res with
    | Except.error _ => none
    | Except.ok info => some (info.map (fun e => processEntry games_map e.1 e.2)))

/-- GameDB.get_all (fetcher.py lines 290-293): the rows whose type column
is game; the Game constructor then drops the type column. -/
def get_all (table : List Row) : List Row :=
  table.filter (fun r => r.type == "game")

/-- Membership of the diff output never meets the known ids: the first
filter of unknown_games already removed them. -/
theorem mem_unknown_not_known {games : List CatalogEntry} {table : List Row}
    {a : Nat} (h : a ∈ (unknown_games games table).map CatalogEntry.appid) :
    a ∉ known_ids table := by
  rcases List.mem_map.mp h with ⟨g, hg, rfl⟩
  have h1 := (List.mem_filter.mp hg).1
  have h2 := (List.mem_filter.mp h1).2
  exact of_decide_eq_true h2

/-- C8: an appid in the diff computed by GameDB.update, equivalently in
the list of detail lookups filter_out_garbage issues for it, is never one
already present in the games table. -/
theorem C8_diff_excludes_known (games : List CatalogEntry) (table : List Row)
    (a : Nat) (h : a ∈ app_details_futures (unknown_games games table)) :
    a ∉ known_ids table :=
  mem_unknown_not_known h

/-- C8 witness: a catalog with one stored and one new id. -/
theorem C8_witness :
    (1 : Nat) ∉ known_ids [⟨7, "Alpha", "game", true, true, true, false⟩] :=
  C8_diff_excludes_known [⟨1, "New Game"⟩, ⟨7, "Alpha"⟩]
    [⟨7, "Alpha", "game", true, true, true, false⟩] 1 (by decide)

/-- C10: a response entry with no data mapping is still inserted, with the
UNKNOWN sentinel type, both platform flags and early access false; a
declared type is kept when present; and an id once in the table is
excluded from every later diff, so it is never looked up again. -/
theorem C10_unknown_sentinel (gm : Nat → String) (a : Nat) (i : AppInfo) :
    (i.data = none →
      processEntry gm a i = ⟨a, gm a, "UNKNOWN!!", false, false, false, false⟩)
    ∧ (∀ d, i.data = some d →
        (processEntry gm a i).type = d.type.getD "UNKNOWN!!")
    ∧ (∀ table games, a ∈ known_ids table →
        a ∉ (unknown_games games table).map CatalogEntry.appid) := by
  refine ⟨?_, ?_, ?_⟩
  · intro h
    simp [processEntry, h, emptyData]
  · intro d h
    simp [processEntry, h]
  · intro table games ha hmem
    exact mem_unknown_not_known hmem ha

/-- C10 witness: a failed lookup entry evaluated concretely. -/
theorem C10_witness :
    processEntry (fun _ => "Blocked") 4000 ⟨none⟩
      = ⟨4000, "Blocked", "UNKNOWN!!", false, false, false, false⟩ :=
  (C10_unknown_sentinel (fun _ => "Blocked") 4000 ⟨none⟩).1 rfl

/-- C5 counterexample: a region-blocked lookup, an entry whose payload has
no data mapping, is inserted into the games table, the only store there
is, contradicting the claim that such an id is routed to an ignore set and
not inserted into the Store. -/
theorem C5_counterexample :
    (⟨4000, "Blocked", "UNKNOWN!!", false, false, false, false⟩ : Row) ∈
      (filter_out_garbage (fun _ => "Blocked")
        [Except.ok [(4000, ⟨none⟩)]]).foldr (· ++ ·) [] := by decide

/-- C5 amended: an entry whose lookup failed or whose declared kind is not
game is inserted into the single games table rather than into any separate
ignore set; its non-game type keeps it out of the game view used for
publishing, and its presence in the table keeps it out of every later
diff, so it is never looked up again. -/
theorem C5_nongame_rows_kept_out (gm : Nat → String) (a : Nat) (i : AppInfo)
    (h : i.data = none ∨ ∃ d, i.data = some d ∧ d.type.getD "UNKNOWN!!" ≠ "game") :
    (processEntry gm a i).type ≠ "game"
    ∧ (∀ table, processEntry gm a i ∉ get_all table)
    ∧ (∀ table games, a ∈ known_ids table →
        a ∉ (unknown_games games table).map CatalogEntry.appid) := by
  have htype : (processEntry gm a i).type ≠ "game" := by
    rcases h with h | ⟨d, hd, hne⟩
    · simp [processEntry, h, emptyData]
    · simpa [processEntry, hd] using hne
  refine ⟨htype, ?_, ?_⟩
  · intro table hmem
    have := (List.mem_filter.mp hmem).2
    exact htype (by simpa using this)
  · intro table games ha hmem
    exact mem_unknown_not_known hmem ha

/-- C5 witness: the amended statement at a concrete failed entry. -/
theorem C5_witness :
    (processEntry (fun _ => "Blocked") 77 ⟨none⟩).type ≠ "game" :=
  (C5_nongame_rows_kept_out (fun _ => "Blocked") 77 ⟨none⟩ (Or.inl rfl)).1

/-- C2 counterexample: with three lookups whose responses complete in
order ok, rate-limited, ok, two batches are committed: the response that
completes after the rate-limit signal is still processed and committed, so
the run does not stop at the signal. -/
theorem C2_counterexample :
    (filter_out_garbage (fun _ => "G")
      [Except.ok [(1, ⟨some ⟨some "game", [], ⟨some true, none, none⟩⟩⟩)],
       Except.error "ValueError raised on the body of a 429 response",
       Except.ok [(2, ⟨some ⟨some "game", [], ⟨some true, none, none⟩⟩⟩)]]).length
      = 2 := by decide

/-- C2 amended: a response that fails decoding, a rate-limited response
included, is skipped by the continue and every other response is still
processed, so the committed batches are exactly those of the surrounding
responses, the ones committed before the signal unchanged; and
decode_response gives the status line no effect, a rate-limited body being
decoded exactly like the same body under a success status. -/
theorem C2_rate_limit_only_skipped (gm : Nat → String)
    (pre post : List (Except String (List (Nat × AppInfo)))) (e : String) :
    filter_out_garbage gm (pre ++ Except.error e :: post)
      = filter_out_garbage gm pre ++ filter_out_garbage gm post
    ∧ ∀ jsonLoads,
        decode_response jsonLoads
            "HTTP/1.0 429 Too Many Requests\r\n\r\n<html>limited</html>"
          = jsonLoads "<html>limited</html>"
        ∧ decode_response jsonLoads
            "HTTP/1.0 200 OK\r\n\r\n<html>limited</html>"
          = jsonLoads "<html>limited</html>" := by
  constructor
  · simp [filter_out_garbage, List.filterMap_append]
  · intro jl
    exact ⟨rfl, rfl⟩

/-- C4 counterexample: twenty-one unknown games put twenty-one lookups in
flight at once, more than the chunk size constant the claim takes as the
configured bound. -/
theorem C4_counterexample :
    ¬ ((app_details_futures
        ((List.range 21).map (fun i => (⟨i + 1, "Game"⟩ : CatalogEntry)))).length
      ≤ chunk_size) := by decide

/-- C4 amended: filter_out_garbage launches one detail lookup per unknown
game, all created before any response is consumed, so the number in flight
at launch equals the number of unknown games; the chunk size constant
bound at the top of the function never limits it. -/
theorem C4_all_lookups_at_once (games : List CatalogEntry) :
    app_details_futures games = games.map CatalogEntry.appid
    ∧ (app_details_futures games).length = games.length
    ∧ ∀ g ∈ games, g.appid ∈ app_details_futures games := by
  refine ⟨rfl, List.length_map _ _, ?_⟩
  intro g hg
  exact List.mem_map_of_mem _ hg

/-- C4 witness: the launch list at a one-game catalog. -/
theorem C4_witness :
    (⟨5, "X"⟩ : CatalogEntry).appid ∈ app_details_futures [⟨5, "X"⟩] :=
  (C4_all_lookups_at_once [⟨5, "X"⟩]).2.2 ⟨5, "X"⟩ (by decide)

structure SlimDict where
  appid : Nat
  name : String
  windows : Bool
  mac : Bool
  linux : Bool
  early_access : Bool
deriving DecidableEq

/-- Game.as_slim_dict (fetcher.py lines 153-161): the projection
serialized into the frontend index; it carries no newsitems field. -/
def as_slim_dict (g : Row) : SlimDict :=
  ⟨g.appid, g.name, g.windows, g.mac, g.linux, g.early_access⟩

/-- The list GameDB.write_frontend serializes in place of the
INSERT_GAMES_HERE marker (fetcher.py line 301), applied to self.games,
which GameDB.update set to get_all of the table (line 249). -/
def frontendGames (table : List Row) : List SlimDict :=
  (get_all table).map as_slim_dict

/-- C9: the aggregate index serializes exactly the slim projection of the
game-typed rows: a slim record is in the serialized list precisely when it
is the projection of a stored row whose type is game, so rows of any other
type contribute nothing. -/
theorem C9_index_is_slim_projection (table : List Row) (s : SlimDict) :
    s ∈ frontendGames table
      ↔ ∃ r, r ∈ table ∧ r.type = "game" ∧ s = as_slim_dict r := by
  simp only [frontendGames, get_all, List.mem_map, List.mem_filter, beq_iff_eq]
  constructor
  · rintro ⟨r, ⟨hr, ht⟩, rfl⟩
    exact ⟨r, hr, ht, rfl⟩
  · rintro ⟨r, hr, ht, rfl⟩
    exact ⟨r, ⟨hr, ht⟩, rfl⟩

structure PubState where
  stable : Option String
  tmp : Option String
deriving DecidableEq

inductive FsOp where
  | openTrunc
  | writePart (s : String)
  | rename
deriving DecidableEq

/-- Effect of one filesystem operation on the stable and temporary paths
of a single artifact: opening the temporary path truncates it, a write
appends to it, the rename moves it whole onto the stable path. -/
def applyOp (st : PubState) : FsOp → PubState
  | FsOp.openTrunc => ⟨st.stable, some ""⟩
  | FsOp.writePart s => ⟨st.stable, st.tmp.map (fun t => t ++ s)⟩
  | FsOp.rename => ⟨st.tmp, none⟩

/-- Operation sequence shared by GameDB.write_frontend (fetcher.py lines
299-304) and the per-title atom publish in GameDB.get_news (lines
330-334): open the temporary path for writing, write the document in one
or more parts, then os.rename it onto the stable path. -/
def publish_ops (parts : List String) : List FsOp :=
  FsOp.openTrunc :: parts.map FsOp.writePart ++ [FsOp.rename]

/-- States visited while executing a sequence of operations from an
initial state, the initial state included; a crash at any point leaves the
filesystem in one of these states. -/
def statesAlong (st : PubState) : List FsOp → List PubState
  | [] => [st]
  | op :: ops => st :: statesAlong (applyOp st op) ops

/-- Contents the temporary file passes through while the parts are
written, starting from an already written accumulator. -/
def tmpStages (acc : String) : List String → List String
  | [] => [acc]
  | p :: ps => acc :: tmpStages (acc ++ p) ps

/-- Trace of the write-then-rename tail: the temporary file grows through
its stages while the stable path is untouched, and the final rename
installs the concatenation of the parts. -/
theorem statesAlong_write_rename (old : Option String) (parts : List String)
    (acc : String) :
    statesAlong ⟨old, some acc⟩ (parts.map FsOp.writePart ++ [FsOp.rename])
      = (tmpStages acc parts).map (fun t => (⟨old, some t⟩ : PubState))
        ++ [⟨some (parts.foldl (· ++ ·) acc), none⟩] := by
  induction parts generalizing acc with
  | nil => simp [statesAlong, applyOp, tmpStages]
  | cons p ps ih => simp [statesAlong, applyOp, tmpStages, ih]

/-- C6: along every publish trace the stable path always holds either the
complete prior document or the complete new one; every state before the
final rename, where a crash would strand the run, still holds exactly the
prior document; and the final state holds exactly the newly written
document with the temporary path gone. -/
theorem C6_atomic_publish (old : Option String) (parts : List String) :
    (∀ st ∈ statesAlong ⟨old, none⟩ (publish_ops parts),
       st.stable = old ∨ st.stable = some (String.join parts))
    ∧ (∀ st ∈ (statesAlong ⟨old, none⟩ (publish_ops parts)).dropLast,
       st.stable = old)
    ∧ (statesAlong ⟨old, none⟩ (publish_ops parts)).getLast?
        = some ⟨some (String.join parts), none⟩ := by
  have hjoin : String.join parts = parts.foldl (· ++ ·) "" := rfl
  have htrace :
      statesAlong ⟨old, none⟩ (publish_ops parts)
        = (⟨old, none⟩ :: (tmpStages "" parts).map (fun t => (⟨old, some t⟩ : PubState)))
          ++ [⟨some (parts.foldl (· ++ ·) ""), none⟩] := by
    simp [publish_ops, statesAlong, applyOp, statesAlong_write_rename]
  refine ⟨?_, ?_, ?_⟩
  · intro st hst
    rw [htrace] at hst
    rcases List.mem_append.mp hst with h | h
    · left
      rcases List.mem_cons.mp h with rfl | h
      · rfl
      · rcases List.mem_map.mp h with ⟨t, _, rfl⟩
        rfl
    · right
      rcases List.mem_singleton.mp h with rfl
      simp [hjoin]
  · intro st hst
    rw [htrace, List.dropLast_concat] at hst
    rcases List.mem_cons.mp hst with rfl | h
    · rfl
    · rcases List.mem_map.mp h with ⟨t, _, rfl⟩
      rfl
  · rw [htrace, List.getLast?_concat, hjoin]

/-- C6 witness: the head of a concrete trace still shows the prior
document. -/
theorem C6_witness :
    (⟨some "old", none⟩ : PubState).stable = some "old"
      ∨ (⟨some "old", none⟩ : PubState).stable = some (String.join ["ne", "w"]) :=
  (C6_atomic_publish (some "old") ["ne", "w"]).1 ⟨some "old", none⟩ (by decide)

/-- Inner loop of GameDB.get_news over one chunk (fetcher.py lines
323-334), over the chunk's futures in completion order: an ok result
writes the game's json and atom artifacts, recorded here by its appid; the
yield of a failed future raises and nothing catches it, so the rest of the
loop is abandoned and the flag goes false. -/
def news_chunk : List (Except String Nat) → List Nat × Bool
  | [] => ([], true)
  | Except.ok a :: rest =>
    let r := news_chunk rest
    (a :: r.1, r.2)
  | Except.error _ :: _ => ([], false)

/-- Outer loop of GameDB.get_news (fetcher.py lines 319-337) over the
chunked games: a chunk that raised ends the whole run, the exception
propagating out of the coroutine; otherwise the next chunk is processed.
Returns the published appids in completion order and whether the run
completed. -/
def get_news_run : List (List (Except String Nat)) → List Nat × Bool
  | [] => ([], true)
  | c :: cs =>
    let r := news_chunk c
    if r.2 then
      let r2 := get_news_run cs
      (r.1 ++ r2.1, r2.2)
    else
      (r.1, false)

/-- A chunk whose results are some successes, then a failure, publishes
exactly the successes that completed first and reports the failure. -/
theorem news_chunk_stops_at_error (oks : List Nat) (e : String)
    (rest : List (Except String Nat)) :
    news_chunk (oks.map Except.ok ++ Except.error e :: rest) = (oks, false) := by
  induction oks with
  | nil => rfl
  | cons o os ih => simp [news_chunk, ih]

/-- A chunk of successes publishes them all. -/
theorem news_chunk_all_ok (oks : List Nat) :
    news_chunk (oks.map Except.ok) = (oks, true) := by
  induction oks with
  | nil => rfl
  | cons o os ih => simp [news_chunk, ih]

/-- C3 counterexample: in a run whose first chunk completes as ok, failed,
ok and whose second chunk is all ok, only the title that completed before
the failure is published: the failure is not isolated to its title, the
rest of the chunk and the following chunk are dropped. -/
theorem C3_counterexample :
    get_news_run [[Except.ok 1, Except.error "ValueError: undecodable body",
        Except.ok 3], [Except.ok 4]] = ([1], false)
    ∧ (3 : Nat) ∉ (get_news_run [[Except.ok 1,
        Except.error "ValueError: undecodable body", Except.ok 3],
        [Except.ok 4]]).1 := by decide

/-- C3 amended: the news loop has no exception handler, so the first
failed title ends the run: the titles whose futures completed before the
failure keep their published artifacts, the rest of the chunk and every
later chunk are not processed; only a run with no failing title processes
every title of every chunk. -/
theorem C3_single_failure_ends_run (oks : List Nat) (e : String)
    (rest : List (Except String Nat)) (cs : List (List (Except String Nat))) :
    get_news_run ((oks.map Except.ok ++ Except.error e :: rest) :: cs)
      = (oks, false)
    ∧ get_news_run [oks.map Except.ok] = (oks, true) := by
  constructor
  · simp [get_news_run, news_chunk_stops_at_error]
  · simp [get_news_run, news_chunk_all_ok]

end SteamNews
